import Mathlib

/-!
Verification of the natural-language specification of
`Frameworks/BlinkIDVerify.xcframework/ios-arm64/BlinkIDVerify.framework/PrivateHeaders/SwiftCxxBridge.hpp`,
the only source file of the BlinkID/blinkid-verify-ios repository.

The file is a C++ bridging header consisting solely of comments, blank
lines and preprocessor directives.  We embed it as its verbatim list of
text lines, give a small model of the C preprocessor fragment relevant to
the file (comment and blank detection, `#pragma once`, `#include <...>`,
`#import "..."`, and `#ifdef`-style conditional compilation), and prove the
claims about the file against that embedding.
-/

namespace SwiftCxxBridge

/-- The sixteen lines of `SwiftCxxBridge.hpp`, verbatim.  The last line of
the file carries no terminating newline; splitting the file's bytes at each
newline character yields exactly these sixteen lines. -/
def swiftCxxBridgeLines : List String :=
  [ "//",
    "//  SwiftCxxBridge.hpp",
    "//  DocumentVerification",
    "//",
    "//  Created by DoDo on 11.09.2024..",
    "//",
    "",
    "#pragma once",
    "",
    "// missing in Inputs.hpp within runner, so until fixed package gets propagated, this include is needed here",
    "#include <tuple>",
    "",
    "#import \"Frame/InputImage.hpp\"",
    "#import \"Session/NativeSession.hpp\"",
    "#import \"NativeDocumentVerify.hpp\"",
    "#import \"License/NativeLicenseProvider.hpp\"" ]

/-- A header inclusion as it appears in the preprocessed output: either a
system include `#include <path>` or a local import `#import "path"`. -/
inductive Header where
  | angle (path : String)
  | quote (path : String)
  deriving DecidableEq, Repr

/-- A preprocessor directive of the fragment used by the file. -/
inductive Directive where
  | pragmaOnce
  | includeAngle (path : String)
  | importQuote (path : String)
  deriving DecidableEq, Repr

/-- ASCII whitespace, as stripped from line ends. -/
def isSpaceChar (c : Char) : Bool :=
  c == ' ' || c == '\t' || c == '\r' || c == '\n'

/-- Strip leading and trailing whitespace from a character list. -/
def trimChars (cs : List Char) : List Char :=
  ((cs.dropWhile isSpaceChar).reverse.dropWhile isSpaceChar).reverse

/-- The characters of a line with surrounding whitespace stripped. -/
def trimLine (s : String) : List Char :=
  trimChars s.data

/-- A line is blank when it holds only whitespace. -/
def isBlankLine (s : String) : Bool :=
  trimLine s = []

/-- A line is a comment line when, after stripping whitespace, it starts
with `//`. -/
def isCommentLine (s : String) : Bool :=
  ("//".data).isPrefixOf (trimLine s)

/-- Parse a line as one of the preprocessor directives occurring in the
file: `#pragma once`, `#include <path>` or `#import "path"`. -/
def parseDirective (s : String) : Option Directive :=
  let t := trimLine s
  if t = "#pragma once".data then
    some Directive.pragmaOnce
  else if ("#include <".data).isPrefixOf t && (">".data).isSuffixOf t then
    some (Directive.includeAngle (String.mk (t.drop 10).dropLast))
  else if ("#import \"".data).isPrefixOf t && ("\"".data).isSuffixOf t then
    some (Directive.importQuote (String.mk (t.drop 9).dropLast))
  else
    none

/-- Classification of a line of the file. -/
inductive LineKind where
  | blank
  | comment
  | directive (d : Directive)
  | other
  deriving DecidableEq, Repr

/-- Classify one line of the file. -/
def classifyLine (s : String) : LineKind :=
  if isBlankLine s then LineKind.blank
  else
    match parseDirective s with
    | some d => LineKind.directive d
    | none => if isCommentLine s then LineKind.comment else LineKind.other

/-- The directives of the file, in textual order. -/
def fileDirectives : List Directive :=
  swiftCxxBridgeLines.filterMap parseDirective

/-- The header inclusions a directive contributes to the preprocessed
output (`#pragma once` contributes none). -/
def headerOf : Directive → Option Header
  | Directive.pragmaOnce => none
  | Directive.includeAngle p => some (Header.angle p)
  | Directive.importQuote p => some (Header.quote p)

/-- The header inclusions contributed by a directive list, in order. -/
def inclusionsOf (ds : List Directive) : List Header :=
  ds.filterMap headerOf

/-- The quoted (framework) imports of the file, in textual order. -/
def frameworkImports : List String :=
  fileDirectives.filterMap fun d =>
    match d with
    | Directive.importQuote p => some p
    | _ => none

/-- Modelled from the spec: the four framework header paths, in the order
the spec enumerates them. -/
def specFrameworkHeaderPaths : List String :=
  [ "Frame/InputImage.hpp",
    "Session/NativeSession.hpp",
    "NativeDocumentVerify.hpp",
    "License/NativeLicenseProvider.hpp" ]

/-- Modelled from the spec: the preprocessed output the spec describes,
namely the inclusion of the standard tuple header followed by the four
framework headers, in that order. -/
def specExpectedInclusions : List Header :=
  Header.angle "tuple" :: specFrameworkHeaderPaths.map Header.quote

/-- A conditional-compilation configuration: which macro names are
defined. -/
def Config : Type :=
  String → Bool

/-- Whether a line is a conditional-compilation directive of the
`#ifdef`/`#ifndef`/`#else`/`#endif` family. -/
def isCondLine (s : String) : Bool :=
  let t := trimLine s
  ("#ifdef".data).isPrefixOf t || ("#ifndef".data).isPrefixOf t ||
    ("#else".data).isPrefixOf t || ("#endif".data).isPrefixOf t ||
    ("#if".data).isPrefixOf t

/-- Run the preprocessor over the lines of a file under configuration
`cfg`, with `stk` the stack of activeness flags of the enclosing
conditional regions.  A directive contributes to the output only when
every enclosing region is active. -/
def ppLines (cfg : Config) : List String → List Bool → List Directive
  | [], _ => []
  | l :: ls, stk =>
    let t := trimLine l
    if ("#ifdef ".data).isPrefixOf t then
      ppLines cfg ls (cfg (String.mk (trimChars (t.drop 7))) :: stk)
    else if ("#ifndef ".data).isPrefixOf t then
      ppLines cfg ls ((!cfg (String.mk (trimChars (t.drop 8)))) :: stk)
    else if ("#else".data).isPrefixOf t then
      match stk with
      | b :: rest => ppLines cfg ls ((!b) :: rest)
      | [] => ppLines cfg ls []
    else if ("#endif".data).isPrefixOf t then
      ppLines cfg ls stk.tail
    else if stk.all id then
      match parseDirective l with
      | some d => d :: ppLines cfg ls stk
      | none => ppLines cfg ls stk
    else
      ppLines cfg ls stk

/-- The directives the preprocessor emits for the file under
configuration `cfg`. -/
def ppFile (cfg : Config) : List Directive :=
  ppLines cfg swiftCxxBridgeLines []

/-- Include the file into a translation unit, honouring `#pragma once`:
`marked` records whether the file's once-guard has already been seen in
this translation unit.  Returns the updated guard state and the header
inclusions the expansion contributes. -/
def runLines : List String → Bool → Bool × List Header
  | [], m => (m, [])
  | l :: ls, m =>
    match parseDirective l with
    | some Directive.pragmaOnce => runLines ls true
    | some d =>
      let r := runLines ls m
      (r.1, (headerOf d).toList ++ r.2)
    | none => runLines ls m

/-- One inclusion of `SwiftCxxBridge.hpp` into a translation unit whose
once-guard state for the file is `marked`: if the guard is set the
inclusion expands to nothing, otherwise the file's lines are processed. -/
def includeSwiftCxxBridge (marked : Bool) : Bool × List Header :=
  if marked then (marked, []) else runLines swiftCxxBridgeLines marked

/-- A header-resolution environment: which header paths resolve. -/
def ResolveEnv : Type :=
  Header → Bool

/-- Processing the header succeeds exactly when every header it includes
resolves. -/
def processingSucceeds (res : ResolveEnv) : Bool :=
  (inclusionsOf fileDirectives).all res

/-- Index of the first line of the file holding the directive `d` (the
length of the file when `d` does not occur). -/
def lineIdxOf (d : Directive) : Nat :=
  swiftCxxBridgeLines.findIdx fun l => decide (parseDirective l = some d)

end SwiftCxxBridge

namespace SwiftCxxBridge

/-- Claim C1: the file exposes exactly four framework include paths —
`Frame/InputImage.hpp`, `Session/NativeSession.hpp`,
`NativeDocumentVerify.hpp` and `License/NativeLicenseProvider.hpp` — and
imports no other framework header: every header it includes other than the
standard `<tuple>` header is one of these four, and each of the four is
included. -/
theorem c1_exactly_four_framework_headers :
    frameworkImports.length = 4 ∧
      ((inclusionsOf fileDirectives).all fun h =>
        h == Header.angle "tuple" ||
          specFrameworkHeaderPaths.any fun p => h == Header.quote p) = true ∧
      (specFrameworkHeaderPaths.all fun p =>
        (inclusionsOf fileDirectives).contains (Header.quote p)) = true := by
  decide

/-- Claim C2: the file contributes no declarations of its own — every
non-blank, non-comment line is a preprocessor directive, so no line of the
file is of any other kind. -/
theorem c2_every_line_blank_comment_or_directive :
    (swiftCxxBridgeLines.all fun l =>
      isBlankLine l || isCommentLine l || (parseDirective l).isSome) = true ∧
      (swiftCxxBridgeLines.all fun l =>
        !(classifyLine l == LineKind.other)) = true := by
  decide

/-- Claim C3: preprocessing the file is equivalent to the textual
inclusion of the standard tuple header followed by the four framework
headers in that order — the file's inclusion output equals the
spec-described output, and every line of the file is a blank, a comment or
one of the five directives (`#pragma once` plus the five inclusions), so
no other tokens contribute. -/
theorem c3_preprocessing_matches_spec_inclusions :
    inclusionsOf fileDirectives = specExpectedInclusions ∧
      fileDirectives.length = 6 ∧
      fileDirectives.head? = some Directive.pragmaOnce ∧
      (swiftCxxBridgeLines.all fun l =>
        isBlankLine l || isCommentLine l || (parseDirective l).isSome) = true := by
  decide

/-- Claim C4: in addition to the four framework headers the file includes
the standard `<tuple>` header, and the include is preceded by a comment
line (the workaround note for the downstream tool's missing transitive
include). -/
theorem c4_tuple_include_present :
    Header.angle "tuple" ∈ inclusionsOf fileDirectives ∧
      frameworkImports = specFrameworkHeaderPaths ∧
      parseDirective (swiftCxxBridgeLines.getD 10 "") =
        some (Directive.includeAngle "tuple") ∧
      isCommentLine (swiftCxxBridgeLines.getD 9 "") = true := by
  decide

/-- Claim C5: the file is exactly sixteen lines long. -/
theorem c5_sixteen_lines :
    swiftCxxBridgeLines.length = 16 := by
  decide

/-- Claim C6: the four framework headers are imported in exactly the order
the spec enumerates them: `Frame/InputImage.hpp`, then
`Session/NativeSession.hpp`, then `NativeDocumentVerify.hpp`, then
`License/NativeLicenseProvider.hpp`. -/
theorem c6_import_order :
    frameworkImports =
      [ "Frame/InputImage.hpp",
        "Session/NativeSession.hpp",
        "NativeDocumentVerify.hpp",
        "License/NativeLicenseProvider.hpp" ] := by
  decide

/-- Claim C7: assuming the standard `<tuple>` header resolves, processing
the file succeeds exactly when the four listed framework headers resolve —
there is no further behaviour. -/
theorem c7_success_iff_four_headers_resolve (res : ResolveEnv)
    (hstd : res (Header.angle "tuple") = true) :
    processingSucceeds res = true ↔
      (specFrameworkHeaderPaths.all fun p => res (Header.quote p)) = true := by
  have h : inclusionsOf fileDirectives =
      Header.angle "tuple" :: specFrameworkHeaderPaths.map Header.quote := by
    decide
  unfold processingSucceeds
  rw [h]
  simp [specFrameworkHeaderPaths, hstd]

/-- Witness for claim C7 at the environment resolving every header. -/
theorem c7_witness :
    ((fun _ => true : ResolveEnv) (Header.angle "tuple") = true) ∧
      (processingSucceeds (fun _ => true : ResolveEnv) = true ↔
        (specFrameworkHeaderPaths.all fun p =>
          (fun _ => true : ResolveEnv) (Header.quote p)) = true) :=
  ⟨rfl, c7_success_iff_four_headers_resolve (fun _ => true) rfl⟩

/-- Claim C8: the file's `#pragma once` makes its inclusion idempotent
within a translation unit — after a first inclusion the once-guard is set,
a second inclusion expands to nothing, and including the file twice
contributes exactly what including it once does. -/
theorem c8_pragma_once_idempotent :
    (includeSwiftCxxBridge false).1 = true ∧
      (includeSwiftCxxBridge (includeSwiftCxxBridge false).1).2 = [] ∧
      (includeSwiftCxxBridge false).2 ++
          (includeSwiftCxxBridge (includeSwiftCxxBridge false).1).2 =
        (includeSwiftCxxBridge false).2 := by
  decide

/-- Claim C9: the `#include <tuple>` directive stands on an earlier line
than each of the four framework imports, so the tuple declarations are
visible to all four imported headers. -/
theorem c9_tuple_before_each_import :
    lineIdxOf (Directive.includeAngle "tuple") <
        lineIdxOf (Directive.importQuote "Frame/InputImage.hpp") ∧
      lineIdxOf (Directive.includeAngle "tuple") <
        lineIdxOf (Directive.importQuote "Session/NativeSession.hpp") ∧
      lineIdxOf (Directive.includeAngle "tuple") <
        lineIdxOf (Directive.importQuote "NativeDocumentVerify.hpp") ∧
      lineIdxOf (Directive.includeAngle "tuple") <
        lineIdxOf (Directive.importQuote "License/NativeLicenseProvider.hpp") := by
  decide

/-- Under any configuration the preprocessor emits exactly the file's
directives: no branch of `ppLines` taken on the file's lines consults the
configuration, so the computation reduces uniformly. -/
theorem ppFile_eq_fileDirectives (cfg : Config) : ppFile cfg = fileDirectives :=
  rfl

/-- Claim C10: the file holds no conditional-compilation directive, and
the preprocessor emits the same directives for it under every
configuration of defined macros. -/
theorem c10_configuration_independent :
    (swiftCxxBridgeLines.all fun l => !isCondLine l) = true ∧
      ∀ cfg₁ cfg₂ : Config, ppFile cfg₁ = ppFile cfg₂ :=
  ⟨by decide, fun cfg₁ cfg₂ =>
    (ppFile_eq_fileDirectives cfg₁).trans (ppFile_eq_fileDirectives cfg₂).symm⟩

end SwiftCxxBridge
